import Mathlib

/-!
Verification of the naf reactivity core.

This file gives a shallow embedding of the two reactivity engines of the
repository and proves the frozen claims about them.

Part 1 embeds the set-based engine of src/naf-html.ts (lines 43-154):
the module-level variables activeSub / activeSets, the track and notify
helpers, and the signal / computed / effect constructors.  Closures are
represented by numbered entities (cells, computeds, effects); the
subscriber callbacks stored in a Set are the run closure of an effect or
the markDirty closure of a computed, represented by the inductive Sub.
A JavaScript Set is an insertion-ordered duplicate-free list; Set.add
appends when absent, Set.delete removes the element keeping the order of
the rest.  Effect and computed bodies are terms of a small expression
language Expr covering exactly the operations the claims exercise
(cell/computed reads, cell writes, arithmetic, conditionals, sequencing,
throwing, and calling a disposal handle).  The interpreter `step` is
fuel-indexed and structurally recursive so that the kernel can evaluate
it; `none` means the fuel ran out.  Exceptions are modelled by
`Except Unit`; faithfully to the source, neither `computed` nor `effect`
in naf-html.ts has a try/finally, so on the error path the interpreter
returns the state exactly as the throw left it.

Part 2 (further below) embeds the linked-list bookkeeping of
src/unnamed/part_018 (lines 967-1087): the Link records with
nextDep/prevDep/nextSub/prevSub pointers, the link function with its
reuse check, the dependency-clearing loop shared by computed and effect,
and the subscriber-collection phase of notify.  Links live in an arena
indexed by position; option-valued fields model the undefined pointers.
-/

namespace Naf

/-- A subscriber callback stored in a subs Set: the run closure of
effect number e, or the markDirty closure of computed number c. -/
inductive Sub where
  | effRun (e : Nat)
  | compDirty (c : Nat)
deriving DecidableEq

/-- Identity of a subs Set: each signal and each computed owns exactly
one Set, so Set identity is the identity of its owner. -/
inductive SetRef where
  | cell (c : Nat)
  | comp (c : Nat)
deriving DecidableEq

/-- Bodies of effects and computeds: the fragment of JavaScript the
claims exercise.  readCell / readComp are calls of the read handles,
writeCell is a call of a signal's write handle, ifNZ tests a value
against 0, throwE throws, disposeE calls the disposal handle returned
by effect(). -/
inductive Expr where
  | lit (n : Int)
  | readCell (c : Nat)
  | readComp (c : Nat)
  | writeCell (c : Nat) (rhs : Expr)
  | add (a b : Expr)
  | ifNZ (c t e : Expr)
  | seq (a b : Expr)
  | throwE
  | disposeE (e : Nat)
deriving DecidableEq

/-- State of one signal: the captured `value` and its `subs` Set
(insertion-ordered, duplicate-free). -/
structure CellSt where
  value : Int
  subs : List Sub
deriving DecidableEq

/-- State of one computed: the captured `value`, `dirty` flag and `subs`
Set, plus its body.  `count` instruments how often the wrapped function
has been invoked (for the laziness/caching claims). -/
structure CompSt where
  value : Int
  dirty : Bool
  subs : List Sub
  body : Expr
  count : Nat
deriving DecidableEq

/-- State of one effect: the captured `running` flag and `subscribedTo`
array (which may hold a Set reference several times, as the source
pushes unconditionally), plus its body.  `count` instruments how often
the effect function has been invoked. -/
structure EffSt where
  running : Bool
  subscribedTo : List SetRef
  body : Expr
  count : Nat
deriving DecidableEq

/-- The whole program state: the entities created so far, the
module-level `activeSub` and `activeSets` variables (the latter is a
reference to the subscribedTo array of some effect, modelled by its
number), and a log of effect invocations in order. -/
structure St where
  cells : List CellSt
  comps : List CompSt
  effs : List EffSt
  activeSub : Option Sub
  activeSets : Option Nat
  log : List Nat
deriving DecidableEq

def St.empty : St := ⟨[], [], [], none, none, []⟩

def defCell : CellSt := ⟨0, []⟩

def defComp : CompSt := ⟨0, true, [], Expr.lit 0, 0⟩

def defEff : EffSt := ⟨false, [], Expr.lit 0, 0⟩

def St.cellAt (s : St) (c : Nat) : CellSt := s.cells.getD c defCell

def St.compAt (s : St) (c : Nat) : CompSt := s.comps.getD c defComp

def St.effAt (s : St) (e : Nat) : EffSt := s.effs.getD e defEff

def St.setCell (s : St) (c : Nat) (x : CellSt) : St :=
  { s with cells := s.cells.set c x }

def St.setComp (s : St) (c : Nat) (x : CompSt) : St :=
  { s with comps := s.comps.set c x }

def St.setEff (s : St) (e : Nat) (x : EffSt) : St :=
  { s with effs := s.effs.set e x }

/-- Content of the subs Set named by r. -/
def St.subsAt (s : St) (r : SetRef) : List Sub :=
  match r with
  | .cell c => (s.cellAt c).subs
  | .comp c => (s.compAt c).subs

def St.setSubsAt (s : St) (r : SetRef) (l : List Sub) : St :=
  match r with
  | .cell c => s.setCell c { s.cellAt c with subs := l }
  | .comp c => s.setComp c { s.compAt c with subs := l }

/-- JavaScript Set.add: append if absent (insertion order kept). -/
def addSub (l : List Sub) (x : Sub) : List Sub :=
  if x ∈ l then l else l ++ [x]

/-- JavaScript Set.delete: remove the element, keep the others in order. -/
def delSub (l : List Sub) (x : Sub) : List Sub :=
  l.filter (fun y => y != x)

/-- The track helper (naf-html.ts line 48): if a subscriber is active,
add it to the Set and push the Set onto activeSets (unconditionally,
even when the add was a no-op or the Set was already pushed). -/
def track (r : SetRef) (s : St) : St :=
  match s.activeSub with
  | none => s
  | some sub =>
    let s1 := s.setSubsAt r (addSub (s.subsAt r) sub)
    match s1.activeSets with
    | none => s1
    | some e =>
      s1.setEff e
        { s1.effAt e with subscribedTo := (s1.effAt e).subscribedTo ++ [r] }

/-- Delete a subscriber from the Set named by r. -/
def removeFromSet (s : St) (x : Sub) (r : SetRef) : St :=
  s.setSubsAt r (delSub (s.subsAt r) x)

/-- The disposal closure returned by effect() (naf-html.ts lines
150-153): delete this effect's run from every Set in subscribedTo,
then empty subscribedTo.  The same code runs at the start of every
effect run (lines 135-136). -/
def disposeEff (e : Nat) (s : St) : St :=
  let s1 := (s.effAt e).subscribedTo.foldl
    (fun acc r => removeFromSet acc (.effRun e) r) s
  s1.setEff e { s1.effAt e with subscribedTo := [] }

/-- A pending operation of the interpreter: evaluate an expression, read
a computed's handle, call a signal's write handle, walk a notification
snapshot, invoke one subscriber callback, or run one effect. -/
inductive Task where
  | eval (e : Expr)
  | rdComp (c : Nat)
  | wrCell (c : Nat) (v : Int)
  | notifyL (subs : List Sub)
  | runCb (sub : Sub)
  | runEff (e : Nat)
deriving DecidableEq

/-- The interpreter for the set-based engine.  Each alternative mirrors
the corresponding lines of naf-html.ts; in particular, on the error path
of a computed recomputation (lines 106-110) and of an effect run (lines
138-145) no saved context is restored and no flag is cleared, because
the source has no try/finally there.  Fuel is spent on every recursive
call; `none` means it ran out. -/
def step : Nat → Task → St → Option (St × Except Unit Int)
  | 0, _, _ => none
  | _ + 1, .eval (.lit n), s => some (s, .ok n)
  | _ + 1, .eval (.readCell c), s =>
    let s1 := track (.cell c) s
    some (s1, .ok (s1.cellAt c).value)
  | f + 1, .eval (.readComp c), s => step f (.rdComp c) s
  | f + 1, .eval (.writeCell c rhs), s =>
    match step f (.eval rhs) s with
    | none => none
    | some (s1, .error u) => some (s1, .error u)
    | some (s1, .ok v) =>
      match step f (.wrCell c v) s1 with
      | none => none
      | some (s2, .error u) => some (s2, .error u)
      | some (s2, .ok _) => some (s2, .ok v)
  | f + 1, .eval (.add a b), s =>
    match step f (.eval a) s with
    | none => none
    | some (s1, .error u) => some (s1, .error u)
    | some (s1, .ok va) =>
      match step f (.eval b) s1 with
      | none => none
      | some (s2, .error u) => some (s2, .error u)
      | some (s2, .ok vb) => some (s2, .ok (va + vb))
  | f + 1, .eval (.ifNZ c t e), s =>
    match step f (.eval c) s with
    | none => none
    | some (s1, .error u) => some (s1, .error u)
    | some (s1, .ok vc) =>
      if vc = 0 then step f (.eval e) s1 else step f (.eval t) s1
  | f + 1, .eval (.seq a b), s =>
    match step f (.eval a) s with
    | none => none
    | some (s1, .error u) => some (s1, .error u)
    | some (s1, .ok _) => step f (.eval b) s1
  | _ + 1, .eval .throwE, s => some (s, .error ())
  | _ + 1, .eval (.disposeE e), s => some (disposeEff e s, .ok 0)
  | f + 1, .rdComp c, s =>
    let s1 := track (.comp c) s
    let st := s1.compAt c
    if st.dirty then
      let prevSub := s1.activeSub
      let s2 := { s1 with activeSub := some (.compDirty c) }
      let s3 := s2.setComp c { s2.compAt c with count := (s2.compAt c).count + 1 }
      match step f (.eval st.body) s3 with
      | none => none
      | some (s4, .error u) => some (s4, .error u)
      | some (s4, .ok v) =>
        let s5 := { s4 with activeSub := prevSub }
        let s6 := s5.setComp c { s5.compAt c with value := v, dirty := false }
        some (s6, .ok v)
    else
      some (s1, .ok st.value)
  | f + 1, .wrCell c v, s =>
    if (s.cellAt c).value = v then some (s, .ok v)
    else
      let s1 := s.setCell c { s.cellAt c with value := v }
      match step f (.notifyL (s1.cellAt c).subs) s1 with
      | none => none
      | some (s2, .error u) => some (s2, .error u)
      | some (s2, .ok _) => some (s2, .ok v)
  | _ + 1, .notifyL [], s => some (s, .ok 0)
  | f + 1, .notifyL (sub :: rest), s =>
    match step f (.runCb sub) s with
    | none => none
    | some (s1, .error u) => some (s1, .error u)
    | some (s1, .ok _) => step f (.notifyL rest) s1
  | f + 1, .runCb (.effRun e), s => step f (.runEff e) s
  | f + 1, .runCb (.compDirty c), s =>
    let s1 := s.setComp c { s.compAt c with dirty := true }
    step f (.notifyL (s1.compAt c).subs) s1
  | f + 1, .runEff e, s =>
    if (s.effAt e).running then some (s, .ok 0)
    else
      let s1 := s.setEff e { s.effAt e with running := true }
      let s2 := disposeEff e s1
      let prevSub := s2.activeSub
      let prevSets := s2.activeSets
      let s3 := { s2 with activeSub := some (.effRun e), activeSets := some e }
      let s4 := s3.setEff e { s3.effAt e with count := (s3.effAt e).count + 1 }
      let s5 := { s4 with log := s4.log ++ [e] }
      match step f (.eval (s5.effAt e).body) s5 with
      | none => none
      | some (s6, .error u) => some (s6, .error u)
      | some (s6, .ok _) =>
        let s7 := { s6 with activeSub := prevSub, activeSets := prevSets }
        let s8 := s7.setEff e { s7.effAt e with running := false }
        some (s8, .ok 0)

/-- signal(initialValue): allocate a fresh cell with an empty subs Set. -/
def mkCell (v : Int) (s : St) : St :=
  { s with cells := s.cells ++ [⟨v, []⟩] }

/-- computed(fn): allocate a fresh computed, dirty, without invoking fn. -/
def mkComp (body : Expr) (s : St) : St :=
  { s with comps := s.comps ++ [⟨0, true, [], body, 0⟩] }

/-- effect(fn): allocate a fresh effect and immediately perform one run. -/
def mkEff (f : Nat) (body : Expr) (s : St) : Option (St × Except Unit Int) :=
  let e := s.effs.length
  let s1 := { s with effs := s.effs ++ [⟨false, [], body, 0⟩] }
  step f (.runEff e) s1

/-- Extract the state of a run, the empty state if the fuel ran out. -/
def stOf (r : Option (St × Except Unit Int)) : St :=
  (r.getD (St.empty, Except.ok 0)).1

/-- The run completed without throwing. -/
def isOk (r : Option (St × Except Unit Int)) : Bool :=
  match r with
  | some (_, .ok _) => true
  | _ => false

/-- State reached by a run that ended in a throw. -/
def errSt (r : Option (St × Except Unit Int)) : Option St :=
  match r with
  | some (s, .error _) => some s
  | _ => none

def logOf (r : Option (St × Except Unit Int)) : Option (List Nat) :=
  r.map fun p => p.1.log

def effCountOf (e : Nat) (r : Option (St × Except Unit Int)) : Option Nat :=
  r.map fun p => (p.1.effAt e).count

def compCountOf (c : Nat) (r : Option (St × Except Unit Int)) : Option Nat :=
  r.map fun p => (p.1.compAt c).count

def cellSubsOf (c : Nat) (r : Option (St × Except Unit Int)) : Option (List Sub) :=
  r.map fun p => (p.1.cellAt c).subs

def compSubsOf (c : Nat) (r : Option (St × Except Unit Int)) : Option (List Sub) :=
  r.map fun p => (p.1.compAt c).subs

def valOf (r : Option (St × Except Unit Int)) : Option Int :=
  match r with
  | some (_, .ok v) => some v
  | _ => none

end Naf

deriving instance DecidableEq for Except

namespace Naf

/-- Unfolding of the write handle when the new value equals the stored
one (the !==-negated check of naf-html.ts line 73 and part_018 line
1135): the state is returned untouched, so no subscriber callback runs. -/
theorem step_wrCell_eq (f c : Nat) (v : Int) (s : St)
    (h : (s.cellAt c).value = v) :
    step (f + 1) (.wrCell c v) s = some (s, .ok v) := by
  simp [step, h]

/-- Unfolding of the write handle when the new value differs from the
stored one: store it, then walk a snapshot of the subs Set. -/
theorem step_wrCell_ne (f c : Nat) (v : Int) (s : St)
    (h : ¬ (s.cellAt c).value = v) :
    step (f + 1) (.wrCell c v) s =
      (match step f
          (.notifyL ((s.setCell c { s.cellAt c with value := v }).cellAt c).subs)
          (s.setCell c { s.cellAt c with value := v }) with
      | none => none
      | some (s2, .error u) => some (s2, .error u)
      | some (s2, .ok _) => some (s2, .ok v)) := by
  simp [step, h]

/-- Unfolding of an effect run that arrives while the effect is already
running (naf-html.ts line 132): the run is skipped and the state is
returned untouched. -/
theorem step_runEff_running (f e : Nat) (s : St)
    (h : (s.effAt e).running = true) :
    step (f + 1) (.runEff e) s = some (s, .ok 0) := by
  simp [step, h]

/-- Writing back the element a list already holds leaves the list
unchanged. -/
theorem set_getD_self {α : Type} :
    ∀ (l : List α) (n : Nat) (d : α), l.set n (l.getD n d) = l := by
  intro l
  induction l with
  | nil => intro n d; rfl
  | cons h t ih =>
    intro n d
    cases n with
    | zero => rfl
    | succ m =>
      show h :: t.set m (t.getD m d) = h :: t
      rw [ih m d]

/-- Calling the disposal closure of an effect whose subscribedTo array
is already empty changes nothing: the forEach walks nothing and the
array is re-emptied. -/
theorem disposeEff_of_empty (s : St) (e : Nat)
    (h : (s.effAt e).subscribedTo = []) :
    disposeEff e s = s := by
  unfold disposeEff
  rw [h]
  show s.setEff e { s.effAt e with subscribedTo := [] } = s
  have h2 : { s.effAt e with subscribedTo := [] } = s.effAt e := by
    cases hE : s.effAt e
    rw [hE] at h
    simp only at h
    simp [h]
  rw [h2]
  show { s with effs := s.effs.set e (s.effs.getD e defEff) } = s
  rw [set_getD_self]

end Naf

/-!
Part 2: the linked-list bookkeeping of src/unnamed/part_018.

Link records live in an arena (a list) and are referred to by index;
an `Option Nat` field models a pointer that may be undefined.  Each
dependency carries subsH/subsT (the subs/subsTail head and tail of its
subscriber list, part_018 lines 980-984), each subscriber carries
depsH/depsT (deps/depsTail, lines 990-993).  llink mirrors the link
function (lines 1019-1057) including its reuse check, llUnlinkLoop and
llClear mirror the dependency-clearing loop that both computed (lines
1221-1243) and effect cleanup (lines 1317-1341) run, and llCollect
mirrors the subscriber-collection phase of notify (lines 1064-1081):
walk the subscriber list, record each subscriber once in order of first
appearance.  Loops take fuel because an ill-formed arena could be
cyclic; every scenario below uses more than enough.
-/

namespace Naf

/-- One Link record (part_018 lines 967-974). -/
structure LLink where
  dep : Nat
  sub : Nat
  nextDep : Option Nat
  prevDep : Option Nat
  nextSub : Option Nat
  prevSub : Option Nat
deriving DecidableEq

/-- The subs/subsTail pointers of a Dependency. -/
structure LDep where
  subsH : Option Nat
  subsT : Option Nat
deriving DecidableEq

/-- The deps/depsTail pointers of a Subscriber. -/
structure LSub where
  depsH : Option Nat
  depsT : Option Nat
deriving DecidableEq

/-- The arena of link records plus all dependencies and subscribers. -/
structure LSt where
  links : List LLink
  deps : List LDep
  subs : List LSub
deriving DecidableEq

def defLLink : LLink := ⟨0, 0, none, none, none, none⟩

def LSt.linkAt (s : LSt) (l : Nat) : LLink := s.links.getD l defLLink

def LSt.depAt (s : LSt) (d : Nat) : LDep := s.deps.getD d ⟨none, none⟩

def LSt.subAt (s : LSt) (su : Nat) : LSub := s.subs.getD su ⟨none, none⟩

def LSt.updLink (s : LSt) (l : Nat) (f : LLink → LLink) : LSt :=
  { s with links := s.links.set l (f (s.linkAt l)) }

def LSt.setDep (s : LSt) (d : Nat) (x : LDep) : LSt :=
  { s with deps := s.deps.set d x }

def LSt.setSub (s : LSt) (su : Nat) (x : LSub) : LSt :=
  { s with subs := s.subs.set su x }

/-- The allocation path of link (part_018 lines 1031-1056): create a
fresh Link, append it to the subscriber's dependency list and to the
dependency's subscriber list, and move both tails onto it. -/
def llinkNew (d su : Nat) (s : LSt) : LSt :=
  let currentTail := (s.subAt su).depsT
  let newId := s.links.length
  let newLink : LLink := ⟨d, su, none, currentTail, none, (s.depAt d).subsT⟩
  let s1 := { s with links := s.links ++ [newLink] }
  let s2 :=
    match currentTail with
    | some t => s1.updLink t (fun L => { L with nextDep := some newId })
    | none => s1.setSub su { s1.subAt su with depsH := some newId }
  let s3 :=
    match (s2.depAt d).subsT with
    | some t2 => s2.updLink t2 (fun L => { L with nextSub := some newId })
    | none => s2.setDep d { s2.depAt d with subsH := some newId }
  let s4 := s3.setDep d { s3.depAt d with subsT := some newId }
  s4.setSub su { s4.subAt su with depsT := some newId }

/-- The link function (part_018 lines 1019-1057).  The reuse check
tests whether the link AFTER the current tail already points at this
dependency (currentTail.nextDep.dep === dep); only then is the existing
link reused by advancing depsTail, otherwise a new link is allocated. -/
def llink (d su : Nat) (s : LSt) : LSt :=
  match (s.subAt su).depsT with
  | some t =>
    match (s.linkAt t).nextDep with
    | some nl =>
      if (s.linkAt nl).dep = d then
        s.setSub su { s.subAt su with depsT := some nl }
      else llinkNew d su s
    | none => llinkNew d su s
  | none => llinkNew d su s

/-- The dependency-clearing loop shared by computed recomputation
(part_018 lines 1221-1240) and effect cleanup (lines 1317-1337): walk
the subscriber's dependency list and splice each link out of its
dependency's subscriber list. -/
def llUnlinkLoop : Nat → Option Nat → LSt → LSt
  | 0, _, s => s
  | _ + 1, none, s => s
  | f + 1, some l, s =>
    let L := s.linkAt l
    let s1 :=
      match L.prevSub with
      | some p => s.updLink p (fun P => { P with nextSub := L.nextSub })
      | none => s.setDep L.dep { s.depAt L.dep with subsH := L.nextSub }
    let s2 :=
      match L.nextSub with
      | some n => s1.updLink n (fun N => { N with prevSub := L.prevSub })
      | none => s1.setDep L.dep { s1.depAt L.dep with subsT := L.prevSub }
    llUnlinkLoop f L.nextDep s2

/-- Ending of the clearing phase (part_018 lines 1242-1243 and
1339-1340): after the loop, deps and depsTail are reset. -/
def llClear (f : Nat) (su : Nat) (s : LSt) : LSt :=
  let s1 := llUnlinkLoop f (s.subAt su).depsH s
  s1.setSub su ⟨none, none⟩

/-- Link ids along a dependency's subscriber list (nextSub pointers). -/
def llSubsWalk : Nat → LSt → Option Nat → List Nat
  | 0, _, _ => []
  | _ + 1, _, none => []
  | f + 1, s, some l => l :: llSubsWalk f s (s.linkAt l).nextSub

/-- Link ids along a subscriber's dependency list (nextDep pointers). -/
def llDepsWalk : Nat → LSt → Option Nat → List Nat
  | 0, _, _ => []
  | _ + 1, _, none => []
  | f + 1, s, some l => l :: llDepsWalk f s (s.linkAt l).nextDep

/-- The subscriber-collection phase of notify (part_018 lines
1064-1081): walk the subscriber list and keep each subscriber once, in
order of first appearance; the collected subscribers are then invoked
in exactly this order. -/
def llCollect (f : Nat) (s : LSt) (d : Nat) : List Nat :=
  ((llSubsWalk f s (s.depAt d).subsH).map (fun l => (s.linkAt l).sub)).foldl
    (fun acc su => if su ∈ acc then acc else acc ++ [su]) []

/-- The (dependency, subscriber) pairs of a dependency's subscriber
list, for counting link records of one pair. -/
def llSubPairs (f : Nat) (s : LSt) (d : Nat) : List (Nat × Nat) :=
  (llSubsWalk f s (s.depAt d).subsH).map fun l => ((s.linkAt l).dep, (s.linkAt l).sub)

/-- The (dependency, subscriber) pairs of a subscriber's dependency
list. -/
def llDepPairs (f : Nat) (s : LSt) (su : Nat) : List (Nat × Nat) :=
  (llDepsWalk f s (s.subAt su).depsH).map fun l => ((s.linkAt l).dep, (s.linkAt l).sub)

/-!
Claim C1.  Scenarios: cell 0 is cellA.  In the counterexample the
effect reads cellA both directly and through computed 0; one write then
re-runs it twice (once from cellA's own subs Set, once via the
computed's markDirty), the first time against the stale cached value.
In the amended configurations the effect reads cellA through exactly
one path and re-runs exactly once.
-/

/-- Reads cellA directly, then through the derivation. -/
def c1CexBody : Expr := Expr.seq (Expr.readCell 0) (Expr.readComp 0)

def c1CexSetup : Option (St × Except Unit Int) :=
  mkEff 12 c1CexBody (mkComp (Expr.readCell 0) (mkCell 0 St.empty))

def c1CexPost : Option (St × Except Unit Int) :=
  step 12 (.wrCell 0 1) (stOf c1CexSetup)

/-- State after creating an effect whose body only reads cellA, which
holds v0. -/
def c1DirectSetup (v0 : Int) : St :=
  ⟨[⟨v0, [Sub.effRun 0]⟩], [],
   [⟨false, [SetRef.cell 0], Expr.readCell 0, 1⟩], none, none, [0]⟩

def c1DirectFinal (x : Int) : St :=
  ⟨[⟨x, [Sub.effRun 0]⟩], [],
   [⟨false, [SetRef.cell 0], Expr.readCell 0, 2⟩], none, none, [0, 0]⟩

/-- State after creating an effect whose body reads cellA only through
computed 0. -/
def c1ViaSetup (v0 : Int) : St :=
  ⟨[⟨v0, [Sub.compDirty 0]⟩],
   [⟨v0, false, [Sub.effRun 0], Expr.readCell 0, 1⟩],
   [⟨false, [SetRef.comp 0, SetRef.cell 0], Expr.readComp 0, 1⟩],
   none, none, [0]⟩

def c1ViaFinal (x : Int) : St :=
  ⟨[⟨x, [Sub.compDirty 0]⟩],
   [⟨x, false, [Sub.effRun 0], Expr.readCell 0, 2⟩],
   [⟨false, [SetRef.comp 0, SetRef.cell 0], Expr.readComp 0, 2⟩],
   none, none, [0, 0]⟩

/-- Amended claim C1: a Reaction that read cellA by exactly one path
(directly only, or via exactly one Derivation) re-runs exactly once
before the write returns. -/
def Claim1Amended (v0 x : Int) : Prop :=
  c1DirectSetup v0 = stOf (mkEff 10 (Expr.readCell 0) (mkCell v0 St.empty)) ∧
  ((c1DirectSetup v0).effAt 0).count = 1 ∧
  step 10 (.wrCell 0 x) (c1DirectSetup v0) = some (c1DirectFinal x, .ok x) ∧
  ((c1DirectFinal x).effAt 0).count = 2 ∧
  (c1DirectFinal x).log = [0, 0] ∧
  c1ViaSetup v0 =
    stOf (mkEff 10 (Expr.readComp 0) (mkComp (Expr.readCell 0) (mkCell v0 St.empty))) ∧
  ((c1ViaSetup v0).effAt 0).count = 1 ∧
  step 10 (.wrCell 0 x) (c1ViaSetup v0) = some (c1ViaFinal x, .ok x) ∧
  ((c1ViaFinal x).effAt 0).count = 2 ∧
  (c1ViaFinal x).log = [0, 0]

/-- Claim C1 is false as stated: an effect that read cellA during its
last run (both directly and via a derivation that read cellA) is
re-run twice, not exactly once, by a single value-changing write.
After creation its run count is 1 (log [0]); the single write
cellA(1) leaves run count 3 and log [0, 0, 0], i.e. two re-runs before
the write returned, and the write itself completed normally. -/
theorem claim1_counterexample :
    effCountOf 0 c1CexSetup = some 1 ∧
    logOf c1CexSetup = some [0] ∧
    effCountOf 0 c1CexPost = some 3 ∧
    logOf c1CexPost = some [0, 0, 0] ∧
    isOk c1CexPost = true := by
  decide

/-- Claim C1 (amended): for every initial value v0 and written value x
with x different from v0, a Reaction that read cellA through exactly
one path — directly only, or via exactly one Derivation — is re-run
exactly once before the write returns (run count 1 becomes 2, one new
log entry). -/
theorem claim1_theorem (v0 x : Int) (h : x ≠ v0) : Claim1Amended v0 x := by
  have hd : ¬ ((c1DirectSetup v0).cellAt 0).value = x := fun e => h e.symm
  have hv : ¬ ((c1ViaSetup v0).cellAt 0).value = x := fun e => h e.symm
  unfold Claim1Amended
  refine ⟨rfl, rfl, ?_, rfl, rfl, rfl, rfl, ?_, rfl, rfl⟩
  · rw [show (10 : Nat) = 9 + 1 from rfl, step_wrCell_ne 9 0 x (c1DirectSetup v0) hd]
    rfl
  · rw [show (10 : Nat) = 9 + 1 from rfl, step_wrCell_ne 9 0 x (c1ViaSetup v0) hv]
    rfl

/-- Witness for claim1_theorem at v0 = 0, x = 1. -/
theorem claim1_witness : Claim1Amended 0 1 :=
  claim1_theorem 0 1 (by decide)

/-!
Claim C2.  Counterexample: computed 0 reads cell 0 (cond, holding 1),
then conditionally cell 1 (a, holding 5) or cell 2 (b, holding 7);
effect 0 reads the computed.  Writing cond to 0 makes the derivation
recompute reading cond and b only — yet a's subs Set still holds the
derivation's markDirty, because computed in naf-html.ts never discards
previous links.  Writing a afterwards therefore re-runs both the
derivation and the effect although the derivation no longer reads a.
Amended scenarios: the set-based effect (which does discard its links
each run) and the linked-list clear-then-relink sequence both end with
exactly the dependencies actually read.
-/

def c2Body : Expr := Expr.ifNZ (Expr.readCell 0) (Expr.readCell 1) (Expr.readCell 2)

def c2Setup : St :=
  stOf (mkEff 12 (Expr.readComp 0)
    (mkComp c2Body (mkCell 7 (mkCell 5 (mkCell 1 St.empty)))))

def c2AfterCond : St := stOf (step 12 (.wrCell 0 0) c2Setup)

def c2AfterA : Option (St × Except Unit Int) := step 12 (.wrCell 1 9) c2AfterCond

/-- Claim C2 is false as stated for the set-based implementation: after
the derivation's recomputation triggered by writing cond to 0 (whose
tracking run read only cond and b), the subs Set of a — read only in
the earlier run — still holds the derivation's markDirty callback: a
stale link.  Behaviourally, a later write to a re-runs the derivation
and the effect (both counts go from 2 to 3) although the derivation's
recorded dependencies should no longer include a. -/
theorem claim2_counterexample :
    (c2AfterCond.compAt 0).count = 2 ∧
    (c2AfterCond.cellAt 1).subs = [Sub.compDirty 0] ∧
    (c2AfterCond.cellAt 2).subs = [Sub.compDirty 0] ∧
    ((c2AfterCond.effAt 0).count = 2 ∧ (c2AfterCond.cellAt 1).value = 5) ∧
    effCountOf 0 c2AfterA = some 3 ∧
    compCountOf 0 c2AfterA = some 3 := by
  decide

/-- Effect reading the cells directly (set-based implementation). -/
def c2EffSetup : St :=
  stOf (mkEff 10 c2Body (mkCell 20 (mkCell 10 (mkCell 1 St.empty))))

def c2EffAfterCond : St := stOf (step 10 (.wrCell 0 0) c2EffSetup)

/-- Linked-list arena: dependencies 0 (cond), 1 (a), 2 (b) and one
subscriber 0. -/
def c2LL0 : LSt := ⟨[], [⟨none, none⟩, ⟨none, none⟩, ⟨none, none⟩], [⟨none, none⟩]⟩

/-- First tracking run of subscriber 0: it reads cond then a, each read
calling link as the source's signal getter does. -/
def c2LLrun1 : LSt := llink 1 0 (llink 0 0 c2LL0)

/-- Re-run: the clearing loop discards every previous link, then the
run reads cond and b. -/
def c2LLrerun : LSt := llink 2 0 (llink 0 0 (llClear 9 0 c2LLrun1))

/-- Claim C2 (amended): Reactions in the set-based implementation and
the clear-then-relink sequence of the linked-list implementation (run
by both its computeds and its effects) do discard all previous links
and end with recorded dependencies exactly equal to the dependencies
read during the run; set-based Derivations however never discard their
previous links (see claim2_counterexample).  Set-based effect: after
the re-run that read cond and b, the effect's run closure is in exactly
those two subs Sets and its subscribedTo lists exactly those two Sets.
Linked list: after clearing and re-reading cond and b, subscriber 0's
dependency list holds exactly the pairs (cond, 0) and (b, 0), cond's
and b's subscriber lists hold exactly subscriber 0, and a's subscriber
list is empty. -/
theorem claim2_theorem :
    (c2EffAfterCond.cellAt 0).subs = [Sub.effRun 0] ∧
    (c2EffAfterCond.cellAt 1).subs = [] ∧
    (c2EffAfterCond.cellAt 2).subs = [Sub.effRun 0] ∧
    (c2EffAfterCond.effAt 0).subscribedTo = [SetRef.cell 0, SetRef.cell 2] ∧
    ((c2LLrun1.subAt 0).depsH = some 0 ∧ llDepPairs 9 c2LLrun1 0 = [(0, 0), (1, 0)]) ∧
    llDepPairs 9 c2LLrerun 0 = [(0, 0), (2, 0)] ∧
    llSubPairs 9 c2LLrerun 0 = [(0, 0)] ∧
    llSubPairs 9 c2LLrerun 1 = [] ∧
    llSubPairs 9 c2LLrerun 2 = [(2, 0)] := by
  decide

/-!
Claim C3.  In naf-html.ts the effect run (lines 131-146) has no
try/finally: when fn() throws, the lines restoring activeSub and
activeSets and clearing the running flag are skipped.  The effect body
below reads cell 0 (subscribing) and then throws; before the run both
activeSub and activeSets were none and running was false.
-/

def c3Body : Expr := Expr.seq (Expr.readCell 0) Expr.throwE

def c3Scenario : Option (St × Except Unit Int) :=
  mkEff 10 c3Body (mkCell 0 St.empty)

def c3Leaked : St :=
  ⟨[⟨0, [Sub.effRun 0]⟩], [],
   [⟨true, [SetRef.cell 0], c3Body, 1⟩],
   some (Sub.effRun 0), some 0, [0]⟩

/-- Claim C3 describes what the spec requires and part_018 implements
(its run has try/finally, lines 1357-1362), but naf-html.ts does not:
when the effect body throws, the exception does propagate to the
caller, but the active tracking context is NOT restored (activeSub
stays pointing at the effect's run closure and activeSets at its
subscribedTo array instead of reverting to none) and the running flag
is NOT cleared — the cleanup lines are skipped on the throwing path. -/
theorem claim3_theorem :
    c3Scenario = some (c3Leaked, .error ()) ∧
    (c3Leaked.effAt 0).running = true ∧
    c3Leaked.activeSub = some (Sub.effRun 0) ∧
    c3Leaked.activeSets = some 0 := by
  decide

/-!
Claim C4.  The write handle compares with strict inequality before
doing anything (naf-html.ts line 73, part_018 line 1135); on equality
it returns the untouched state, so no subscriber callback can run and
every run count, subs Set and the log stay exactly as they were, while
the stored value (being equal to the written one) equals the written
value.
-/

/-- A state with a subscribed effect, showing the equal write does not
notify even when subscribers exist. -/
def c4W : St :=
  ⟨[⟨5, [Sub.effRun 0]⟩], [],
   [⟨false, [SetRef.cell 0], Expr.readCell 0, 1⟩], none, none, [0]⟩

/-- Claim C4: for every state, cell and value w equal to the cell's
current value, the write returns the state completely unchanged (hence
invokes no subscriber callback and re-runs no Reaction) and returns w;
the stored value then equals w. -/
theorem claim4_theorem (f c : Nat) (v : Int) (s : St)
    (h : (s.cellAt c).value = v) :
    step (f + 1) (.wrCell c v) s = some (s, .ok v) ∧ (s.cellAt c).value = v :=
  ⟨step_wrCell_eq f c v s h, h⟩

/-- Witness for claim4_theorem on a state with a subscribed effect. -/
theorem claim4_witness :
    step 1 (.wrCell 0 5) c4W = some (c4W, .ok 5) ∧ (c4W.cellAt 0).value = 5 :=
  claim4_theorem 0 0 5 c4W rfl

/-!
Claim C5.  Effect 0 reads cell 0 directly and computed 0 (which reads
cell 1).  Disposal removes the run closure from cell 0's and the
computed's subs Sets and empties subscribedTo; subsequent
value-changing writes to both previously read dependencies no longer
reach the effect, and a second disposal call is a no-op (proved in
general for any effect with an empty subscribedTo array).
-/

def c5Setup : St :=
  stOf (mkEff 12 (Expr.seq (Expr.readCell 0) (Expr.readComp 0))
    (mkComp (Expr.readCell 1) (mkCell 2 (mkCell 1 St.empty))))

def c5Disposed : St := disposeEff 0 c5Setup

def c5W1 : Option (St × Except Unit Int) := step 12 (.wrCell 0 5) c5Disposed

def c5W2 : Option (St × Except Unit Int) := step 12 (.wrCell 1 7) (stOf c5W1)

/-- Closed part of claim C5: before disposal the effect is subscribed
to the cell and the derivation; disposal empties both subscriber
collections and the effect's own dependency list; value-changing
writes to the previously read cell and to the derivation's upstream
cell then complete without the effect running again (count stays 1,
log stays [0]); calling the disposal handle a second time leaves the
state untouched. -/
def Claim5Closed : Prop :=
  (c5Setup.cellAt 0).subs = [Sub.effRun 0] ∧
  (c5Setup.compAt 0).subs = [Sub.effRun 0] ∧
  (c5Setup.effAt 0).count = 1 ∧
  (c5Disposed.cellAt 0).subs = [] ∧
  (c5Disposed.compAt 0).subs = [] ∧
  (c5Disposed.effAt 0).subscribedTo = [] ∧
  isOk c5W1 = true ∧
  isOk c5W2 = true ∧
  effCountOf 0 c5W2 = some 1 ∧
  logOf c5W2 = some [0] ∧
  disposeEff 0 c5Disposed = c5Disposed

/-- Claim C5: after disposal no subsequent write to a previously read
Cell or Derivation re-runs the Reaction (closed scenario), and calling
the disposal handle of any effect whose subscribedTo array is already
empty — as it is after a first disposal — is a harmless no-op. -/
theorem claim5_theorem :
    Claim5Closed ∧
    ∀ (s : St) (e : Nat), (s.effAt e).subscribedTo = [] → disposeEff e s = s :=
  ⟨by unfold Claim5Closed; decide, fun s e h => disposeEff_of_empty s e h⟩

/-- Witness for the universally quantified part of claim5_theorem. -/
theorem claim5_witness : disposeEff 1 St.empty = St.empty :=
  claim5_theorem.2 St.empty 1 rfl

/-!
Claim C6.  The effect's body is cond.read() ? a.read() : b.read() with
cond = cell 0 (initially 1, i.e. true), a = cell 1 (initially 10),
b = cell 2 (initially 20).  The states after creation and after each of
the four writes are spelled out; the written values b1 (to b while cond
is true), b2 (to b after cond became false) and a1 (to a at the end)
are arbitrary new values.
-/

def c6Body : Expr := Expr.ifNZ (Expr.readCell 0) (Expr.readCell 1) (Expr.readCell 2)

/-- After creation: the run read cond and a, so only their Sets hold
the run closure. -/
def c6S0 : St :=
  ⟨[⟨1, [Sub.effRun 0]⟩, ⟨10, [Sub.effRun 0]⟩, ⟨20, []⟩], [],
   [⟨false, [SetRef.cell 0, SetRef.cell 1], c6Body, 1⟩], none, none, [0]⟩

/-- After writing b1 to b while cond is true: only b's value changed. -/
def c6S1 (b1 : Int) : St :=
  ⟨[⟨1, [Sub.effRun 0]⟩, ⟨10, [Sub.effRun 0]⟩, ⟨b1, []⟩], [],
   [⟨false, [SetRef.cell 0, SetRef.cell 1], c6Body, 1⟩], none, none, [0]⟩

/-- After writing 0 to cond: the re-run read cond and b, so a's Set is
empty and b's holds the run closure. -/
def c6S2 (b1 : Int) : St :=
  ⟨[⟨0, [Sub.effRun 0]⟩, ⟨10, []⟩, ⟨b1, [Sub.effRun 0]⟩], [],
   [⟨false, [SetRef.cell 0, SetRef.cell 2], c6Body, 2⟩], none, none, [0, 0]⟩

/-- After writing b2 to b with cond false: the effect re-ran. -/
def c6S3 (b2 : Int) : St :=
  ⟨[⟨0, [Sub.effRun 0]⟩, ⟨10, []⟩, ⟨b2, [Sub.effRun 0]⟩], [],
   [⟨false, [SetRef.cell 0, SetRef.cell 2], c6Body, 3⟩], none, none, [0, 0, 0]⟩

/-- After writing a1 to a with cond false: value stored, no re-run. -/
def c6S4 (b2 a1 : Int) : St :=
  ⟨[⟨0, [Sub.effRun 0]⟩, ⟨a1, []⟩, ⟨b2, [Sub.effRun 0]⟩], [],
   [⟨false, [SetRef.cell 0, SetRef.cell 2], c6Body, 3⟩], none, none, [0, 0, 0]⟩

/-- Claim C6 as one statement over the four writes: while cond is true
writing b does not re-run the Reaction (count stays 1); writing cond
to 0 re-runs it (count 2) and re-establishes dependencies from the
branch taken; then writing b re-runs it (count 3) and writing a does
not (count stays 3, log [0, 0, 0]). -/
def Claim6 (b1 b2 a1 : Int) : Prop :=
  c6S0 = stOf (mkEff 10 c6Body (mkCell 20 (mkCell 10 (mkCell 1 St.empty)))) ∧
  (c6S0.effAt 0).count = 1 ∧
  step 10 (.wrCell 2 b1) c6S0 = some (c6S1 b1, .ok b1) ∧
  ((c6S1 b1).effAt 0).count = 1 ∧
  step 10 (.wrCell 0 0) (c6S1 b1) = some (c6S2 b1, .ok 0) ∧
  ((c6S2 b1).effAt 0).count = 2 ∧
  step 10 (.wrCell 2 b2) (c6S2 b1) = some (c6S3 b2, .ok b2) ∧
  ((c6S3 b2).effAt 0).count = 3 ∧
  step 10 (.wrCell 1 a1) (c6S3 b2) = some (c6S4 b2 a1, .ok a1) ∧
  ((c6S4 b2 a1).effAt 0).count = 3 ∧
  (c6S4 b2 a1).log = [0, 0, 0]

/-- Claim C6: for all new values b1 (written to b while cond is true),
b2 (written to b after cond became false) and a1 (written to a at the
end), dependencies are re-established from only the branch actually
taken on each run: the b1 write does not re-run the Reaction, the b2
write does, the a1 write does not. -/
theorem claim6_theorem (b1 b2 a1 : Int)
    (h1 : b1 ≠ 20) (h2 : b2 ≠ b1) (h3 : a1 ≠ 10) : Claim6 b1 b2 a1 := by
  have e1 : ¬ (c6S0.cellAt 2).value = b1 := fun e => h1 e.symm
  have e2 : ¬ ((c6S1 b1).cellAt 0).value = (0 : Int) := by
    intro e
    have e0 : (1 : Int) = 0 := e
    exact one_ne_zero e0
  have e3 : ¬ ((c6S2 b1).cellAt 2).value = b2 := fun e => h2 e.symm
  have e4 : ¬ ((c6S3 b2).cellAt 1).value = a1 := fun e => h3 e.symm
  unfold Claim6
  refine ⟨rfl, rfl, ?_, rfl, ?_, rfl, ?_, rfl, ?_, rfl, rfl⟩
  · rw [show (10 : Nat) = 9 + 1 from rfl, step_wrCell_ne 9 2 b1 c6S0 e1]
    rfl
  · rw [show (10 : Nat) = 9 + 1 from rfl, step_wrCell_ne 9 0 0 (c6S1 b1) e2]
    rfl
  · rw [show (10 : Nat) = 9 + 1 from rfl, step_wrCell_ne 9 2 b2 (c6S2 b1) e3]
    rfl
  · rw [show (10 : Nat) = 9 + 1 from rfl, step_wrCell_ne 9 1 a1 (c6S3 b2) e4]
    rfl

/-- Witness for claim6_theorem at b1 = 21, b2 = 22, a1 = 11. -/
theorem claim6_witness : Claim6 21 22 11 :=
  claim6_theorem 21 22 11 (by decide) (by decide) (by decide)

/-!
Claim C7.  The general part is the reentrancy guard itself: a run
request for an effect whose running flag is set returns the state
untouched (the notification is dropped, not queued).  The closed part
runs an effect that reads cell 0 and then writes 1 to it: during the
initial run the write's notification reaches the effect itself, is
skipped, and the whole construction terminates with the effect having
run exactly once.
-/

def c7Body : Expr := Expr.seq (Expr.readCell 0) (Expr.writeCell 0 (Expr.lit 1))

def c7Scenario : Option (St × Except Unit Int) :=
  mkEff 10 c7Body (mkCell 0 St.empty)

def c7Final : St :=
  ⟨[⟨1, [Sub.effRun 0]⟩], [],
   [⟨false, [SetRef.cell 0], c7Body, 1⟩], none, none, [0]⟩

/-- A state whose effect 0 is mid-run, for the witness. -/
def c7Busy : St := ⟨[], [], [⟨true, [], Expr.lit 0, 0⟩], none, none, []⟩

/-- Claim C7: a notification that triggers a Reaction while it is
already running is skipped — the state is returned untouched, so the
notification is dropped, not queued (general part); consequently an
effect that writes a Cell it also reads terminates after a single run:
the construction completes normally with run count 1, one log entry,
the written value stored, and the running flag back to false. -/
theorem claim7_theorem :
    (∀ (f e : Nat) (s : St), (s.effAt e).running = true →
      step (f + 1) (.runEff e) s = some (s, .ok 0)) ∧
    c7Scenario = some (c7Final, .ok 0) ∧
    (c7Final.effAt 0).count = 1 ∧
    c7Final.log = [0] ∧
    (c7Final.cellAt 0).value = 1 ∧
    (c7Final.effAt 0).running = false :=
  ⟨fun f e s h => step_runEff_running f e s h, by decide, rfl, rfl, rfl, rfl⟩

/-- Witness for the universally quantified part of claim7_theorem. -/
theorem claim7_witness : step 3 (.runEff 0) c7Busy = some (c7Busy, .ok 0) :=
  claim7_theorem.1 2 0 c7Busy rfl

/-!
Claim C8.  Computed 0 wraps a read of cell 0, which holds an arbitrary
value v.  Creation does not invoke the function (count 0); the first
call of the read handle invokes it once (count 1) and returns v; the
second call returns the cached v and the state — including the
invocation count — is completely unchanged.
-/

def c8Setup (v : Int) : St := mkComp (Expr.readCell 0) (mkCell v St.empty)

def c8After (v : Int) : St :=
  ⟨[⟨v, [Sub.compDirty 0]⟩],
   [⟨v, false, [], Expr.readCell 0, 1⟩], [], none, none, []⟩

/-- Claim C8: creating a Derivation does not invoke its function; the
first read invokes it exactly once and returns the computed value; a
second read with no intervening dependency change invokes nothing —
it returns the cached value and leaves the state identical. -/
theorem claim8_theorem (v : Int) :
    ((c8Setup v).compAt 0).count = 0 ∧
    step 6 (.rdComp 0) (c8Setup v) = some (c8After v, .ok v) ∧
    ((c8After v).compAt 0).count = 1 ∧
    step 6 (.rdComp 0) (c8After v) = some (c8After v, .ok v) :=
  ⟨rfl, rfl, rfl, rfl⟩

/-!
Claim C9.  The linked-list link function reuses a link only when the
link after the current depsTail already points at the dependency
(currentTail.nextDep.dep === dep).  During a tracking run links are
appended fresh, so the tail's nextDep is undefined and two consecutive
reads of the same dependency allocate two link records — the claimed
reuse does not happen.  The reuse path does fire on a retained list
whose tail's successor matches; and notify's seen-set still keeps the
doubly-linked subscriber from being notified twice.
-/

/-- One dependency, one subscriber, no links yet. -/
def c9S0 : LSt := ⟨[], [⟨none, none⟩], [⟨none, none⟩]⟩

/-- Subscriber 0 reads dependency 0 twice consecutively during one
tracked run. -/
def c9S2 : LSt := llink 0 0 (llink 0 0 c9S0)

/-- Claim C9 is false as stated: after subscriber 0 re-reads dependency
0 consecutively during one tracked run, the arena holds two link
records, and both the subscriber's dependency list and the
dependency's subscriber list contain two link records for the pair
(0, 0) — not exactly one. -/
theorem claim9_counterexample :
    c9S2.links.length = 2 ∧
    llDepPairs 5 c9S2 0 = [(0, 0), (0, 0)] ∧
    llSubPairs 5 c9S2 0 = [(0, 0), (0, 0)] := by
  decide

/-- A retained dependency list: subscriber 0's depsTail is link 0
(for dependency 1) and link 0's nextDep is link 1, which points at
dependency 0.  This is the shape the reuse check actually tests. -/
def c9Reuse : LSt :=
  ⟨[⟨1, 0, some 1, none, none, none⟩, ⟨0, 0, none, some 0, none, none⟩],
   [⟨some 1, some 1⟩, ⟨some 0, some 0⟩],
   [⟨some 0, some 0⟩]⟩

/-- Claim C9 (amended): the link function reuses an existing link only
when the successor of the current depsTail already points at this
dependency — then no link is allocated and depsTail advances onto the
existing link; a consecutive re-read of the same dependency during one
run (where the tail's successor is undefined) instead allocates a
duplicate link record in both lists; duplicate notification is
nevertheless prevented, because notify's collection phase keeps each
subscriber once. -/
theorem claim9_theorem :
    llink 0 0 c9Reuse = { c9Reuse with subs := [⟨some 0, some 1⟩] } ∧
    (llink 0 0 c9Reuse).links = c9Reuse.links ∧
    c9S2.links.length = 2 ∧
    llDepPairs 5 c9S2 0 = [(0, 0), (0, 0)] ∧
    llCollect 5 c9S2 0 = [0] := by
  decide

/-!
Claim C10.  Set-based scenario: effect 0 reads cell 0 and, when its
value is not zero, calls the disposal handle of effect 1; effect 1
reads cell 0.  Both subscribe (subs Set [run0, run1]).  Writing 1 to
cell 0 notifies a snapshot: run0 runs first (removing and re-adding
itself, and removing run1 from the Set via disposal), yet run1 — in
the snapshot but no longer in the live Set — still runs, exactly
once, in snapshot order.  Neither re-subscription during the pass
causes an extra invocation within that pass.  Linked-list scenario: the
collection phase of notify returns the subscribers of the snapshot in
first-appearance order with duplicates removed.
-/

def c10B0 : Expr :=
  Expr.seq (Expr.readCell 0)
    (Expr.ifNZ (Expr.readCell 0) (Expr.disposeE 1) (Expr.lit 0))

def c10S : St :=
  stOf (mkEff 10 (Expr.readCell 0) (stOf (mkEff 10 c10B0 (mkCell 0 St.empty))))

def c10W : Option (St × Except Unit Int) := step 12 (.wrCell 0 1) c10S

/-- Linked-list arena: subscriber 0 reads dependency 0, subscriber 1
reads it, then subscriber 0 reads it again (duplicate link). -/
def c10LL : LSt :=
  llink 0 0 (llink 0 1 (llink 0 0 ⟨[], [⟨none, none⟩], [⟨none, none⟩, ⟨none, none⟩]⟩))

/-- Claim C10: the callbacks invoked by a value-changing write are
exactly those of a snapshot of the subscriber collection taken when
notification starts, in that order.  In the set-based scenario both
effects were subscribed ([run0, run1]); during the pass effect 0 runs
first and disposes effect 1 (removing it from the live Set), yet
effect 1 still runs, after effect 0 (log [0, 1] within the pass);
each runs exactly once although both re-subscribed themselves during
the pass (counts 2 and 2, not 3).  In the linked-list model the
collection phase of notify returns each subscriber of the snapshot
once, in first-appearance order. -/
theorem claim10_theorem :
    (c10S.cellAt 0).subs = [Sub.effRun 0, Sub.effRun 1] ∧
    c10S.log = [0, 1] ∧
    logOf c10W = some [0, 1, 0, 1] ∧
    effCountOf 0 c10W = some 2 ∧
    effCountOf 1 c10W = some 2 ∧
    isOk c10W = true ∧
    llSubPairs 9 c10LL 0 = [(0, 0), (0, 1), (0, 0)] ∧
    llCollect 9 c10LL 0 = [0, 1] := by
  decide

end Naf
